import Mathlib

/-!
Shallow embedding of `homework.py`, a fitness-tracker module computing
distance, mean speed and spent calories for three workout kinds
(running, race walking, swimming), together with proofs of the
specification claims.

Python floats are modelled as exact rationals (`ℚ`); Python runtime
faults (`ZeroDivisionError`, `NotImplementedError`, `KeyError`,
`TypeError`) are modelled with `Except PyErr`.
-/

/-- Runtime errors the embedded Python code can raise. -/
inductive PyErr : Type where
  | zeroDivisionError : PyErr
  | notImplementedError : PyErr
  | keyError : String → PyErr
  | typeError : PyErr
deriving DecidableEq

deriving instance DecidableEq for Except

/-- Python `/` on floats: raises `ZeroDivisionError` on a zero divisor. -/
def pyDiv (a b : ℚ) : Except PyErr ℚ :=
  if b = 0 then .error .zeroDivisionError else .ok (a / b)

/-- Python `//` (floor division) on floats: floor of the true quotient,
raising `ZeroDivisionError` on a zero divisor. -/
def pyFloorDiv (a b : ℚ) : Except PyErr ℚ :=
  if b = 0 then .error .zeroDivisionError else .ok ((⌊a / b⌋ : ℤ) : ℚ)

/-- Python `int()` on a float: truncation toward zero. -/
def pyInt (q : ℚ) : ℤ := if 0 ≤ q then ⌊q⌋ else ⌈q⌉

/-- `InfoMessage` dataclass: the workout summary
(`training_type`, `duration`, `distance`, `speed`, `calories`). -/
structure InfoMessage : Type where
  training_type : String
  duration : ℚ
  distance : ℚ
  speed : ℚ
  calories : ℚ
deriving DecidableEq

/-- Round to the nearest integer, ties to the even integer, as Python's
fixed-point float formatting does. -/
def roundHalfEven (q : ℚ) : ℤ :=
  if q - ⌊q⌋ < 1 / 2 then ⌊q⌋
  else if 1 / 2 < q - ⌊q⌋ then ⌊q⌋ + 1
  else if ⌊q⌋ % 2 = 0 then ⌊q⌋ else ⌊q⌋ + 1

/-- Render a natural number below 1000 as exactly three digits. -/
def padTo3 (n : Nat) : String :=
  if n < 10 then "00" ++ toString n
  else if n < 100 then "0" ++ toString n
  else toString n

/-- Python's `.3f` format specifier: fixed-point notation with exactly
three digits after the decimal point, no thousands separators. -/
def formatFixed3 (q : ℚ) : String :=
  let n : ℤ := roundHalfEven (q * 1000)
  let sign : String := if n < 0 then "-" else ""
  sign ++ toString (n.natAbs / 1000) ++ "." ++ padTo3 (n.natAbs % 1000)

/-- `InfoMessage.get_message`: renders the fixed template
`Тип тренировки: ...; Длительность: ... ч.; Дистанция: ... км;
Ср. скорость: ... км/ч; Потрачено ккал: ... .` with every numeric field
formatted by the `.3f` specifier. -/
def InfoMessage.get_message (m : InfoMessage) : String :=
  "Тип тренировки: " ++ m.training_type
    ++ "; Длительность: " ++ formatFixed3 m.duration
    ++ " ч.; Дистанция: " ++ formatFixed3 m.distance
    ++ " км; Ср. скорость: " ++ formatFixed3 m.speed
    ++ " км/ч; Потрачено ккал: " ++ formatFixed3 m.calories
    ++ "."

/-- Base class `Training`: raw workout data
(`action` steps/strokes as integer, `duration` hours, `weight` kg). -/
structure Training : Type where
  action : ℤ
  duration : ℚ
  weight : ℚ
deriving DecidableEq

/-- `Training.LEN_STEP = 0.65` (metres covered by one step). -/
def Training.LEN_STEP : ℚ := 0.65

/-- `Training.M_IN_KM = 1000`. -/
def Training.M_IN_KM : ℚ := 1000

/-- `Training.SECONDS_IN_MIN = 60`. -/
def Training.SECONDS_IN_MIN : ℚ := 60

/-- `Training.get_distance`: `action * LEN_STEP / M_IN_KM`. -/
def Training.get_distance (t : Training) : ℚ :=
  (t.action : ℚ) * Training.LEN_STEP / Training.M_IN_KM

/-- `Training.get_mean_speed`: `get_distance() / duration`. -/
def Training.get_mean_speed (t : Training) : Except PyErr ℚ :=
  pyDiv t.get_distance t.duration

/-- `Training.get_spent_calories`: `raise NotImplementedError`. -/
def Training.get_spent_calories (_ : Training) : Except PyErr ℚ :=
  .error .notImplementedError

/-- `Training.get_duration_in_minutes`: `duration * SECONDS_IN_MIN`. -/
def Training.get_duration_in_minutes (t : Training) : ℚ :=
  t.duration * Training.SECONDS_IN_MIN

/-- `Training.show_training_info` on the base class: builds an
`InfoMessage` from `type(self).__name__`, duration, distance, mean speed
and spent calories (which always raises on the base class). -/
def Training.show_training_info (t : Training) : Except PyErr InfoMessage :=
  match t.get_mean_speed with
  | .error e => .error e
  | .ok speed =>
    match t.get_spent_calories with
    | .error e => .error e
    | .ok calories => .ok ⟨"Training", t.duration, t.get_distance, speed, calories⟩

/-- `Running`: same constructor fields as `Training`. -/
structure Running extends Training
deriving DecidableEq

/-- `Running.COEFF_CALLORIE_1 = 18`. -/
def Running.COEFF_CALLORIE_1 : ℚ := 18

/-- `Running.COEFF_CALLORIE_2 = 20`. -/
def Running.COEFF_CALLORIE_2 : ℚ := 20

/-- `Running.get_spent_calories`:
`(coeff_1 * get_mean_speed() - coeff_2) * weight / M_IN_KM * get_duration_in_minutes()`. -/
def Running.get_spent_calories (r : Running) : Except PyErr ℚ :=
  match r.toTraining.get_mean_speed with
  | .error e => .error e
  | .ok speed =>
    .ok ((Running.COEFF_CALLORIE_1 * speed - Running.COEFF_CALLORIE_2)
      * r.weight / Training.M_IN_KM * r.toTraining.get_duration_in_minutes)

/-- `Running.show_training_info`: label `Running`, then duration,
distance, mean speed, spent calories. -/
def Running.show_training_info (r : Running) : Except PyErr InfoMessage :=
  match r.toTraining.get_mean_speed with
  | .error e => .error e
  | .ok speed =>
    match r.get_spent_calories with
    | .error e => .error e
    | .ok calories =>
      .ok ⟨"Running", r.duration, r.toTraining.get_distance, speed, calories⟩

/-- `SportsWalking`: `Training` fields plus `height` (cm). -/
structure SportsWalking extends Training where
  height : ℚ
deriving DecidableEq

/-- `SportsWalking.COEFF_CALLORIE_1 = 0.035`. -/
def SportsWalking.COEFF_CALLORIE_1 : ℚ := 0.035

/-- `SportsWalking.COEFF_CALLORIE_2 = 0.029`. -/
def SportsWalking.COEFF_CALLORIE_2 : ℚ := 0.029

/-- `SportsWalking.get_spent_calories`:
`(coeff_1 * weight + (get_mean_speed() ** 2 // height) * coeff_2) * get_duration_in_minutes()`,
with `//` the Python floor division. -/
def SportsWalking.get_spent_calories (w : SportsWalking) : Except PyErr ℚ :=
  match w.toTraining.get_mean_speed with
  | .error e => .error e
  | .ok speed =>
    match pyFloorDiv (speed ^ 2) w.height with
    | .error e => .error e
    | .ok fd =>
      .ok ((SportsWalking.COEFF_CALLORIE_1 * w.weight
          + fd * SportsWalking.COEFF_CALLORIE_2)
        * w.toTraining.get_duration_in_minutes)

/-- `SportsWalking.show_training_info`: label `SportsWalking`, then
duration, distance, mean speed, spent calories. -/
def SportsWalking.show_training_info (w : SportsWalking) :
    Except PyErr InfoMessage :=
  match w.toTraining.get_mean_speed with
  | .error e => .error e
  | .ok speed =>
    match w.get_spent_calories with
    | .error e => .error e
    | .ok calories =>
      .ok ⟨"SportsWalking", w.duration, w.toTraining.get_distance, speed, calories⟩

/-- `Swimming`: `Training` fields plus `length_pool` (m) and `count_pool`. -/
structure Swimming extends Training where
  length_pool : ℚ
  count_pool : ℚ
deriving DecidableEq

/-- `Swimming.LEN_STEP = 1.38` (metres covered by one stroke). -/
def Swimming.LEN_STEP : ℚ := 1.38

/-- `Swimming.COEFF_CALLORIE_1 = 1.1`. -/
def Swimming.COEFF_CALLORIE_1 : ℚ := 1.1

/-- `Swimming.COEFF_CALLORIE_2 = 2`. -/
def Swimming.COEFF_CALLORIE_2 : ℚ := 2

/-- `Swimming.get_distance`: inherited body with the overridden
`LEN_STEP`: `action * 1.38 / M_IN_KM`. -/
def Swimming.get_distance (s : Swimming) : ℚ :=
  (s.action : ℚ) * Swimming.LEN_STEP / Training.M_IN_KM

/-- `Swimming.get_mean_speed` (override):
`length_pool * count_pool / M_IN_KM / duration`. -/
def Swimming.get_mean_speed (s : Swimming) : Except PyErr ℚ :=
  pyDiv (s.length_pool * s.count_pool / Training.M_IN_KM) s.duration

/-- `Swimming.get_spent_calories`:
`(get_mean_speed() + coeff_1) * coeff_2 * weight`. -/
def Swimming.get_spent_calories (s : Swimming) : Except PyErr ℚ :=
  match s.get_mean_speed with
  | .error e => .error e
  | .ok speed =>
    .ok ((speed + Swimming.COEFF_CALLORIE_1) * Swimming.COEFF_CALLORIE_2 * s.weight)

/-- `Swimming.show_training_info`: label `Swimming`, then duration,
distance, mean speed, spent calories. -/
def Swimming.show_training_info (s : Swimming) : Except PyErr InfoMessage :=
  match s.get_mean_speed with
  | .error e => .error e
  | .ok speed =>
    match s.get_spent_calories with
    | .error e => .error e
    | .ok calories => .ok ⟨"Swimming", s.duration, s.get_distance, speed, calories⟩

/-- A constructed calculator: one of the three concrete variants. -/
inductive AnyTraining : Type where
  | swm : Swimming → AnyTraining
  | run : Running → AnyTraining
  | wlk : SportsWalking → AnyTraining
deriving DecidableEq

/-- Positional unpacking `Swimming(*data)`: needs exactly five values,
any other arity raises `TypeError`; `action` is coerced with `int()`. -/
def Swimming.from_data : List ℚ → Except PyErr Swimming
  | [action, duration, weight, length_pool, count_pool] =>
      .ok ⟨⟨pyInt action, duration, weight⟩, length_pool, count_pool⟩
  | _ => .error .typeError

/-- Positional unpacking `Running(*data)`: needs exactly three values,
any other arity raises `TypeError`; `action` is coerced with `int()`. -/
def Running.from_data : List ℚ → Except PyErr Running
  | [action, duration, weight] => .ok ⟨⟨pyInt action, duration, weight⟩⟩
  | _ => .error .typeError

/-- Positional unpacking `SportsWalking(*data)`: needs exactly four
values, any other arity raises `TypeError`; `action` is coerced with
`int()`. -/
def SportsWalking.from_data : List ℚ → Except PyErr SportsWalking
  | [action, duration, weight, height] =>
      .ok ⟨⟨pyInt action, duration, weight⟩, height⟩
  | _ => .error .typeError

/-- `read_package`: looks the workout code up in the dict
`SWM ↦ Swimming, RUN ↦ Running, WLK ↦ SportsWalking` and calls the
constructor on the positionally unpacked data. An unknown code raises
`KeyError`, which is caught, reported on stdout (first component:
printed lines) and re-raised; a constructor arity `TypeError` is not
caught and prints nothing. -/
def read_package (workout_type : String) (data : List ℚ) :
    List String × Except PyErr AnyTraining :=
  if workout_type = "SWM" then ([], (Swimming.from_data data).map .swm)
  else if workout_type = "RUN" then ([], (Running.from_data data).map .run)
  else if workout_type = "WLK" then ([], (SportsWalking.from_data data).map .wlk)
  else (["This type of workout \"" ++ workout_type ++ "\" is not supported."],
    .error (.keyError workout_type))

/-- C1: for every SportsWalking (RaceWalking) workout with nonzero duration
and height, `get_spent_calories()` returns
`(0.035 * weight + floor(mean_speed ^ 2 / height) * 0.029) * (duration * 60)`,
with floor division (not ordinary division) of the squared mean speed by
the height; in particular for `(action=9000, duration=1, weight=75,
height=180)` the result is `157.5` kcal. -/
theorem sportsWalking_calories_floor_div_spec (w : SportsWalking)
    (hd : w.duration ≠ 0) (hh : w.height ≠ 0) :
    (∃ speed : ℚ, w.toTraining.get_mean_speed = .ok speed ∧
      w.get_spent_calories =
        .ok ((0.035 * w.weight + ((⌊speed ^ 2 / w.height⌋ : ℤ) : ℚ) * 0.029)
          * (w.duration * 60))) ∧
    SportsWalking.get_spent_calories ⟨⟨9000, 1, 75⟩, 180⟩ = .ok 157.5 := by
  constructor
  · refine ⟨w.toTraining.get_distance / w.duration, ?_, ?_⟩
    · simp [Training.get_mean_speed, pyDiv, hd]
    · simp only [SportsWalking.get_spent_calories, Training.get_mean_speed,
        pyDiv, pyFloorDiv, if_neg hd, if_neg hh,
        SportsWalking.COEFF_CALLORIE_1, SportsWalking.COEFF_CALLORIE_2,
        Training.get_duration_in_minutes, Training.SECONDS_IN_MIN]
  · norm_num [SportsWalking.get_spent_calories, Training.get_mean_speed, pyDiv,
      pyFloorDiv, Training.get_distance, Training.LEN_STEP, Training.M_IN_KM,
      Training.get_duration_in_minutes, Training.SECONDS_IN_MIN,
      SportsWalking.COEFF_CALLORIE_1, SportsWalking.COEFF_CALLORIE_2,
      Int.floor_eq_iff]

/-- Witness for C1: the general theorem instantiated at the reference
workout `(action=9000, duration=1, weight=75, height=180)`. -/
theorem sportsWalking_calories_floor_div_spec_witness :
    SportsWalking.get_spent_calories ⟨⟨9000, 1, 75⟩, 180⟩ = .ok 157.5 :=
  (sportsWalking_calories_floor_div_spec ⟨⟨9000, 1, 75⟩, 180⟩
    (by norm_num) (by norm_num)).2

/-- C2 counterexample: `get_distance()` does not return
`unit_count * 0.65` (the step-length constant read as a length of
0.65 km): for the Running workout `(action=15000, duration=1, weight=75)`
it returns `9.75`, while `15000 * 0.65 = 9750`. -/
theorem distance_constant_km_counterexample :
    Training.get_distance ⟨15000, 1, 75⟩ = 9.75 ∧
    Training.get_distance ⟨15000, 1, 75⟩ ≠ 15000 * 0.65 := by
  norm_num [Training.get_distance, Training.LEN_STEP, Training.M_IN_KM]

/-- C2 amended: `get_distance()` returns
`unit_count * LEN_STEP / M_IN_KM` with `M_IN_KM = 1000`, where the
per-variant step-length constant `LEN_STEP` is `0.65` metres
(`0.65 / 1000` km) per running/walking step and `1.38` metres
(`1.38 / 1000` km) per swimming stroke. -/
theorem distance_step_length_amended :
    (∀ t : Training, Training.get_distance t = (t.action : ℚ) * 0.65 / 1000) ∧
    (∀ s : Swimming, Swimming.get_distance s = (s.action : ℚ) * 1.38 / 1000) := by
  constructor
  · intro t
    norm_num [Training.get_distance, Training.LEN_STEP, Training.M_IN_KM]
  · intro s
    norm_num [Swimming.get_distance, Swimming.LEN_STEP, Training.M_IN_KM]

/-- C3 counterexample: for the Running workout
`(action=15000, duration=1, weight=75)`, `get_spent_calories()` returns
`699.75` kcal, not `722.25` kcal as the claim states
(`(18 * 9.75 - 20) * 75 / 1000 * 60 = 699.75`). -/
theorem running_calories_value_counterexample :
    Running.get_spent_calories ⟨⟨15000, 1, 75⟩⟩ = .ok 699.75 ∧
    Running.get_spent_calories ⟨⟨15000, 1, 75⟩⟩ ≠ .ok 722.25 := by
  norm_num [Running.get_spent_calories, Training.get_mean_speed, pyDiv,
    Training.get_distance, Training.LEN_STEP, Training.M_IN_KM,
    Training.get_duration_in_minutes, Training.SECONDS_IN_MIN,
    Running.COEFF_CALLORIE_1, Running.COEFF_CALLORIE_2]

/-- C3 amended: for a Running workout constructed with
`(action=15000, duration=1, weight=75)`, `get_distance()` returns `9.75`
km, `get_mean_speed()` returns `9.75` km/h and `get_spent_calories()`
returns `(18 * 9.75 - 20) * 75 / 1000 * 60 = 699.75` kcal; in general
Running calories equal
`(18 * mean_speed - 20) * weight / 1000 * duration_minutes`. -/
theorem running_calories_formula_amended (r : Running) (hd : r.duration ≠ 0) :
    (∃ speed : ℚ, r.toTraining.get_mean_speed = .ok speed ∧
      r.get_spent_calories =
        .ok ((18 * speed - 20) * r.weight / 1000 * (r.duration * 60))) ∧
    Training.get_distance ⟨15000, 1, 75⟩ = 9.75 ∧
    Training.get_mean_speed ⟨15000, 1, 75⟩ = .ok 9.75 ∧
    Running.get_spent_calories ⟨⟨15000, 1, 75⟩⟩ = .ok 699.75 := by
  refine ⟨⟨r.toTraining.get_distance / r.duration, ?_, ?_⟩, ?_, ?_, ?_⟩
  · simp [Training.get_mean_speed, pyDiv, hd]
  · simp only [Running.get_spent_calories, Training.get_mean_speed, pyDiv,
      if_neg hd, Running.COEFF_CALLORIE_1, Running.COEFF_CALLORIE_2,
      Training.M_IN_KM, Training.get_duration_in_minutes,
      Training.SECONDS_IN_MIN]
  · norm_num [Training.get_distance, Training.LEN_STEP, Training.M_IN_KM]
  · norm_num [Training.get_mean_speed, pyDiv, Training.get_distance,
      Training.LEN_STEP, Training.M_IN_KM]
  · norm_num [Running.get_spent_calories, Training.get_mean_speed, pyDiv,
      Training.get_distance, Training.LEN_STEP, Training.M_IN_KM,
      Training.get_duration_in_minutes, Training.SECONDS_IN_MIN,
      Running.COEFF_CALLORIE_1, Running.COEFF_CALLORIE_2]

/-- Witness for the amended C3: the theorem instantiated at the
reference Running workout `(action=15000, duration=1, weight=75)`. -/
theorem running_calories_formula_amended_witness :
    Training.get_distance ⟨15000, 1, 75⟩ = 9.75 ∧
    Training.get_mean_speed ⟨15000, 1, 75⟩ = .ok 9.75 ∧
    Running.get_spent_calories ⟨⟨15000, 1, 75⟩⟩ = .ok 699.75 :=
  (running_calories_formula_amended ⟨⟨15000, 1, 75⟩⟩ (by norm_num)).2

/-- C4: for every workout with nonzero duration, `get_mean_speed()`
returns `get_distance() / duration`; Swimming overrides it with
`length_pool * count_pool / 1000 / duration`, which for
`(length_pool=25, count_pool=40, duration=1)` is `1.0` km/h. -/
theorem mean_speed_spec :
    (∀ t : Training, t.duration ≠ 0 →
      Training.get_mean_speed t = .ok (Training.get_distance t / t.duration)) ∧
    (∀ s : Swimming, s.duration ≠ 0 →
      Swimming.get_mean_speed s =
        .ok (s.length_pool * s.count_pool / 1000 / s.duration)) ∧
    Swimming.get_mean_speed ⟨⟨720, 1, 80⟩, 25, 40⟩ = .ok 1 := by
  refine ⟨fun t ht => ?_, fun s hs => ?_, ?_⟩
  · simp [Training.get_mean_speed, pyDiv, ht]
  · simp [Swimming.get_mean_speed, pyDiv, hs, Training.M_IN_KM]
  · norm_num [Swimming.get_mean_speed, pyDiv, Training.M_IN_KM]

/-- Witness for C4: both mean-speed equations instantiated at concrete
workouts with nonzero duration. -/
theorem mean_speed_spec_witness :
    Training.get_mean_speed ⟨15000, 1, 75⟩ =
      .ok (Training.get_distance ⟨15000, 1, 75⟩ / 1) ∧
    Swimming.get_mean_speed ⟨⟨720, 1, 80⟩, 25, 40⟩ = .ok (25 * 40 / 1000 / 1) :=
  ⟨mean_speed_spec.1 ⟨15000, 1, 75⟩ (by norm_num),
    (mean_speed_spec.2.1 ⟨⟨720, 1, 80⟩, 25, 40⟩ (by norm_num)).trans (by norm_num)⟩

/-- C5: for every Swimming workout with nonzero duration,
`get_spent_calories()` returns `(mean_speed + 1.1) * 2 * weight`; in
particular for `(action=720, duration=1, weight=80, length_pool=25,
count_pool=40)` the result is `(1.0 + 1.1) * 2 * 80 = 336.0` kcal. -/
theorem swimming_calories_spec (s : Swimming) (hd : s.duration ≠ 0) :
    (∃ speed : ℚ, Swimming.get_mean_speed s = .ok speed ∧
      s.get_spent_calories = .ok ((speed + 1.1) * 2 * s.weight)) ∧
    Swimming.get_spent_calories ⟨⟨720, 1, 80⟩, 25, 40⟩ = .ok 336 := by
  refine ⟨⟨s.length_pool * s.count_pool / Training.M_IN_KM / s.duration, ?_, ?_⟩, ?_⟩
  · simp [Swimming.get_mean_speed, pyDiv, hd]
  · simp only [Swimming.get_spent_calories, Swimming.get_mean_speed, pyDiv,
      if_neg hd, Swimming.COEFF_CALLORIE_1, Swimming.COEFF_CALLORIE_2]
  · norm_num [Swimming.get_spent_calories, Swimming.get_mean_speed, pyDiv,
      Training.M_IN_KM, Swimming.COEFF_CALLORIE_1, Swimming.COEFF_CALLORIE_2]

/-- Witness for C5: the theorem instantiated at the reference Swimming
workout `(action=720, duration=1, weight=80, length_pool=25,
count_pool=40)`. -/
theorem swimming_calories_spec_witness :
    Swimming.get_spent_calories ⟨⟨720, 1, 80⟩, 25, 40⟩ = .ok 336 :=
  (swimming_calories_spec ⟨⟨720, 1, 80⟩, 25, 40⟩ (by norm_num)).2

/-- C6: for every activity code outside `{SWM, RUN, WLK}`,
`read_package` prints a diagnostic naming the unrecognized code,
re-raises the `KeyError` to the caller and constructs no calculator; for
each known code it constructs the corresponding variant by positionally
unpacking the raw value list into that variant's constructor. -/
theorem read_package_dispatch_spec (code : String) (data : List ℚ)
    (h1 : code ≠ "SWM") (h2 : code ≠ "RUN") (h3 : code ≠ "WLK") :
    read_package code data =
      (["This type of workout \"" ++ code ++ "\" is not supported."],
        .error (.keyError code)) ∧
    (∀ a d w h lp cp : ℚ,
      read_package "SWM" [a, d, w, lp, cp] =
        ([], .ok (.swm ⟨⟨pyInt a, d, w⟩, lp, cp⟩)) ∧
      read_package "RUN" [a, d, w] = ([], .ok (.run ⟨⟨pyInt a, d, w⟩⟩)) ∧
      read_package "WLK" [a, d, w, h] = ([], .ok (.wlk ⟨⟨pyInt a, d, w⟩, h⟩))) := by
  refine ⟨by simp [read_package, h1, h2, h3], fun a d w h lp cp => ⟨?_, ?_, ?_⟩⟩
  · simp [read_package, Swimming.from_data, Except.map]
  · simp [read_package, Running.from_data, Except.map]
  · simp [read_package, SportsWalking.from_data, Except.map]

/-- Witness for C6: the unknown code `XYZ` with an empty data list is
reported and re-raised as a `KeyError`. -/
theorem read_package_dispatch_spec_witness :
    read_package "XYZ" [] =
      (["This type of workout \"" ++ "XYZ" ++ "\" is not supported."],
        .error (.keyError "XYZ")) :=
  (read_package_dispatch_spec "XYZ" [] (by decide) (by decide) (by decide)).1

/-- C7: `get_message` renders exactly the fixed line with the five
fields in order and every numeric field formatted to exactly three
decimal places; checked byte-for-byte on concrete summaries. -/
theorem get_message_format_spec :
    (∀ m : InfoMessage, InfoMessage.get_message m =
      "Тип тренировки: " ++ m.training_type
        ++ "; Длительность: " ++ formatFixed3 m.duration
        ++ " ч.; Дистанция: " ++ formatFixed3 m.distance
        ++ " км; Ср. скорость: " ++ formatFixed3 m.speed
        ++ " км/ч; Потрачено ккал: " ++ formatFixed3 m.calories ++ ".") ∧
    InfoMessage.get_message ⟨"Swimming", 1, 0.9936, 1, 336⟩ =
      "Тип тренировки: Swimming; Длительность: 1.000 ч.; Дистанция: 0.994 км; Ср. скорость: 1.000 км/ч; Потрачено ккал: 336.000." ∧
    InfoMessage.get_message ⟨"SportsWalking", 1, 5.85, 5.85, 157.5⟩ =
      "Тип тренировки: SportsWalking; Длительность: 1.000 ч.; Дистанция: 5.850 км; Ср. скорость: 5.850 км/ч; Потрачено ккал: 157.500." := by
  refine ⟨fun m => rfl, ?_, ?_⟩
  · norm_num [InfoMessage.get_message, formatFixed3, roundHalfEven,
      Int.floor_eq_iff]
    rfl
  · norm_num [InfoMessage.get_message, formatFixed3, roundHalfEven,
      Int.floor_eq_iff]
    rfl

/-- C8: `get_spent_calories` on the unspecialized base `Training` always
fails with `NotImplementedError`; each of the three concrete variants
overrides it, so that error is unreachable through a variant. -/
theorem base_calories_not_implemented_spec :
    (∀ t : Training,
      Training.get_spent_calories t = .error .notImplementedError) ∧
    (∀ r : Running,
      Running.get_spent_calories r ≠ .error .notImplementedError) ∧
    (∀ w : SportsWalking,
      SportsWalking.get_spent_calories w ≠ .error .notImplementedError) ∧
    (∀ s : Swimming,
      Swimming.get_spent_calories s ≠ .error .notImplementedError) := by
  refine ⟨fun t => rfl, fun r => ?_, fun w => ?_, fun s => ?_⟩
  · by_cases hd : r.duration = 0 <;>
      simp [Running.get_spent_calories, Training.get_mean_speed, pyDiv, hd]
  · by_cases hd : w.duration = 0
    · simp [SportsWalking.get_spent_calories, Training.get_mean_speed, pyDiv, hd]
    · by_cases hh : w.height = 0 <;>
        simp [SportsWalking.get_spent_calories, Training.get_mean_speed, pyDiv,
          pyFloorDiv, hd, hh]
  · by_cases hd : s.duration = 0 <;>
      simp [Swimming.get_spent_calories, Swimming.get_mean_speed, pyDiv, hd]

/-- C9: nothing guards the division by duration: with duration exactly 0
`get_mean_speed` (and hence summary production) yields a raw
`ZeroDivisionError`; with duration nonzero every division in
`get_mean_speed` is well-defined and returns a value. -/
theorem zero_duration_division_fault_spec :
    (∀ t : Training, t.duration = 0 →
      Training.get_mean_speed t = .error .zeroDivisionError) ∧
    (∀ s : Swimming, s.duration = 0 →
      Swimming.get_mean_speed s = .error .zeroDivisionError) ∧
    (∀ r : Running, r.duration = 0 →
      Running.show_training_info r = .error .zeroDivisionError) ∧
    (∀ t : Training, t.duration ≠ 0 →
      Training.get_mean_speed t = .ok (Training.get_distance t / t.duration)) ∧
    (∀ s : Swimming, s.duration ≠ 0 →
      Swimming.get_mean_speed s =
        .ok (s.length_pool * s.count_pool / Training.M_IN_KM / s.duration)) := by
  refine ⟨fun t ht => ?_, fun s hs => ?_, fun r hr => ?_, fun t ht => ?_,
    fun s hs => ?_⟩
  · simp [Training.get_mean_speed, pyDiv, ht]
  · simp [Swimming.get_mean_speed, pyDiv, hs]
  · simp [Running.show_training_info, Training.get_mean_speed, pyDiv, hr]
  · simp [Training.get_mean_speed, pyDiv, ht]
  · simp [Swimming.get_mean_speed, pyDiv, hs]

/-- Witness for C9: both fault cases at duration 0 and both well-defined
cases at duration 1, on concrete workouts. -/
theorem zero_duration_division_fault_spec_witness :
    Training.get_mean_speed ⟨15000, 0, 75⟩ = .error .zeroDivisionError ∧
    Swimming.get_mean_speed ⟨⟨720, 0, 80⟩, 25, 40⟩ = .error .zeroDivisionError ∧
    Running.show_training_info ⟨⟨15000, 0, 75⟩⟩ = .error .zeroDivisionError ∧
    Training.get_mean_speed ⟨15000, 1, 75⟩ =
      .ok (Training.get_distance ⟨15000, 1, 75⟩ / 1) ∧
    Swimming.get_mean_speed ⟨⟨720, 1, 80⟩, 25, 40⟩ =
      .ok (25 * 40 / Training.M_IN_KM / 1) :=
  ⟨zero_duration_division_fault_spec.1 ⟨15000, 0, 75⟩ rfl,
    zero_duration_division_fault_spec.2.1 ⟨⟨720, 0, 80⟩, 25, 40⟩ rfl,
    zero_duration_division_fault_spec.2.2.1 ⟨⟨15000, 0, 75⟩⟩ rfl,
    zero_duration_division_fault_spec.2.2.2.1 ⟨15000, 1, 75⟩ (by norm_num),
    zero_duration_division_fault_spec.2.2.2.2 ⟨⟨720, 1, 80⟩, 25, 40⟩ (by norm_num)⟩

/-- C10: for the Swimming workout `(action=720, duration=1, weight=80,
length_pool=25, count_pool=40)`, `get_distance()` is `0.9936` km (from
the stroke count) but `get_mean_speed()` is `1.0` km/h (from the pool
fields), so `mean_speed * duration ≠ distance`. -/
theorem swimming_speed_distance_mismatch :
    Swimming.get_distance ⟨⟨720, 1, 80⟩, 25, 40⟩ = 0.9936 ∧
    Swimming.get_mean_speed ⟨⟨720, 1, 80⟩, 25, 40⟩ = .ok 1 ∧
    (1 : ℚ) * 1 ≠ Swimming.get_distance ⟨⟨720, 1, 80⟩, 25, 40⟩ := by
  refine ⟨?_, ?_, ?_⟩ <;>
    norm_num [Swimming.get_distance, Swimming.LEN_STEP, Swimming.get_mean_speed,
      pyDiv, Training.M_IN_KM]
